import Mathlib

/-!
Shallow embedding of the BC1 encoder in src/icbc.h (icbc v1.02) and proofs
about it.

Modelling conventions:
- IEEE single-precision floats are modelled as exact rationals.  All float
  literals of the source are taken at their exact decimal value.
- The scalar code path of the source (ICBC_USE_SPMD == ICBC_FLOAT,
  VEC_SIZE == 1) is embedded; the decoder variant is the default
  ICBC_DECODER == Decoder_D3D10 where a variant is not named explicitly.
- C unsigned integer conversions are modelled with explicit mod, C integer
  division on non-negative values with Nat division.
- Fixed-size C arrays indexed by a loop become functions out of Fin n or
  lists folded in loop order.
-/

attribute [local semireducible] Rat.add Rat.sub Rat.mul Rat.inv Rat.ofScientific

set_option maxRecDepth 40000

set_option maxHeartbeats 1000000

namespace icbc

/-- FLT_MAX, the exact value of the largest finite single-precision float. -/
def fltMax : ℚ := (2 ^ 24 - 1) * 2 ^ 104

structure Vector3 where
  x : ℚ
  y : ℚ
  z : ℚ
deriving DecidableEq, Repr

structure Vector4 where
  x : ℚ
  y : ℚ
  z : ℚ
  w : ℚ
deriving DecidableEq, Repr

def Vector4.xyz (v : Vector4) : Vector3 := ⟨v.x, v.y, v.z⟩

instance : Add Vector3 := ⟨fun a b => ⟨a.x + b.x, a.y + b.y, a.z + b.z⟩⟩
instance : Sub Vector3 := ⟨fun a b => ⟨a.x - b.x, a.y - b.y, a.z - b.z⟩⟩
instance : Mul Vector3 := ⟨fun a b => ⟨a.x * b.x, a.y * b.y, a.z * b.z⟩⟩
instance : HMul Vector3 ℚ Vector3 := ⟨fun v s => ⟨v.x * s, v.y * s, v.z * s⟩⟩
instance : HMul ℚ Vector3 Vector3 := ⟨fun s v => ⟨v.x * s, v.y * s, v.z * s⟩⟩
instance : HDiv Vector3 ℚ Vector3 := ⟨fun v s => ⟨v.x / s, v.y / s, v.z / s⟩⟩

instance : OfNat Vector3 0 := ⟨⟨0, 0, 0⟩⟩
instance : Inhabited Vector3 := ⟨⟨0, 0, 0⟩⟩

def dot (a b : Vector3) : ℚ := a.x * b.x + a.y * b.y + a.z * b.z

def lengthSquared (v : Vector3) : ℚ := dot v v

/-- saturate on scalars: clamp(x, 0, 1). -/
def saturateQ (x : ℚ) : ℚ := min (max x 0) 1

def Vector3.saturate (v : Vector3) : Vector3 :=
  ⟨saturateQ v.x, saturateQ v.y, saturateQ v.z⟩

def vmin (a b : Vector3) : Vector3 := ⟨min a.x b.x, min a.y b.y, min a.z b.z⟩
def vmax (a b : Vector3) : Vector3 := ⟨max a.x b.x, max a.y b.y, max a.z b.z⟩

def scalar_to_vector3 (f : ℚ) : Vector3 := ⟨f, f, f⟩

/-- equal(float, float, epsilon): fabsf(a - b) < epsilon. -/
def equalQ (a b eps : ℚ) : Bool := |a - b| < eps

/-- equal(Vector3, Vector3, epsilon): componentwise. -/
def equal3 (a b : Vector3) (eps : ℚ) : Bool :=
  equalQ a.x b.x eps && equalQ a.y b.y eps && equalQ a.z b.z eps

/-- Truncating float-to-unsigned conversion for a non-negative value. -/
def ratTrunc (x : ℚ) : ℕ := x.floor.toNat

/-- Packed 5:6:5 endpoint; fields are the b:5, g:6, r:5 bitfields. -/
structure Color16 where
  r : ℕ
  g : ℕ
  b : ℕ
deriving DecidableEq, Repr

/-- The uint16 view of the bitfield union. -/
def Color16.u (c : Color16) : ℕ := c.r * 2048 + c.g * 32 + c.b

/-- Building a Color16 by assigning the uint16 member (truncating to 16 bits). -/
def Color16.ofU (u : ℕ) : Color16 := ⟨u >>> 11 % 32, u >>> 5 % 64, u % 32⟩

/-- 32-bit BGRA color; fields are the b, g, r, a bytes. -/
structure Color32 where
  b : ℕ
  g : ℕ
  r : ℕ
  a : ℕ
deriving DecidableEq, Repr

/-- Color32 with u == 0 (palette[3].u = 0 writes the whole union). -/
def Color32.zero : Color32 := ⟨0, 0, 0, 0⟩

structure BlockDXT1 where
  col0 : Color16
  col1 : Color16
  indices : ℕ
deriving DecidableEq, Repr

/-! Color conversion: the midpoints5 and midpoints6 tables are static float
arrays in the source; entries are the exact decimal literals. -/

def midpoints5 : List ℚ :=
  [0.015686, 0.047059, 0.078431, 0.111765, 0.145098, 0.176471, 0.207843, 0.241176,
   0.274510, 0.305882, 0.337255, 0.370588, 0.403922, 0.435294, 0.466667, 0.5,
   0.533333, 0.564706, 0.596078, 0.629412, 0.662745, 0.694118, 0.725490, 0.758824,
   0.792157, 0.823529, 0.854902, 0.888235, 0.921569, 0.952941, 0.984314, 1.0]

def midpoints6 : List ℚ :=
  [0.007843, 0.023529, 0.039216, 0.054902, 0.070588, 0.086275, 0.101961, 0.117647,
   0.133333, 0.149020, 0.164706, 0.180392, 0.196078, 0.211765, 0.227451, 0.245098,
   0.262745, 0.278431, 0.294118, 0.309804, 0.325490, 0.341176, 0.356863, 0.372549,
   0.388235, 0.403922, 0.419608, 0.435294, 0.450980, 0.466667, 0.482353, 0.500000,
   0.517647, 0.533333, 0.549020, 0.564706, 0.580392, 0.596078, 0.611765, 0.627451,
   0.643137, 0.658824, 0.674510, 0.690196, 0.705882, 0.721569, 0.737255, 0.754902,
   0.772549, 0.788235, 0.803922, 0.819608, 0.835294, 0.850980, 0.866667, 0.882353,
   0.898039, 0.913725, 0.929412, 0.945098, 0.960784, 0.976471, 0.992157, 1.0]

def clampQ (x a b : ℚ) : ℚ := min (max x a) b

/-- vector3_to_color16: truncate each channel to the 5/6-bit grid, then round
up by one step exactly when the value exceeds the bit-expansion midpoint. -/
def vector3_to_color16 (v : Vector3) : Color16 :=
  let r0 : ℕ := ratTrunc (clampQ (v.x * 31) 0 31)
  let g0 : ℕ := ratTrunc (clampQ (v.y * 63) 0 63)
  let b0 : ℕ := ratTrunc (clampQ (v.z * 31) 0 31)
  let r : ℕ := r0 + (if v.x > midpoints5.getD r0 1 then 1 else 0)
  let g : ℕ := g0 + (if v.y > midpoints6.getD g0 1 then 1 else 0)
  let b : ℕ := b0 + (if v.z > midpoints5.getD b0 1 then 1 else 0)
  Color16.ofU ((r <<< 11) ||| (g <<< 5) ||| b)

/-- bitexpand_color16_to_color32, by the shift-and-mask computation on the
uint view that the source performs. -/
def bitexpand_color16_to_color32 (c : Color16) : Color32 :=
  let u0 : ℕ := ((c.u <<< 3) &&& 0xf8) ||| ((c.u <<< 5) &&& 0xfc00) ||| ((c.u <<< 8) &&& 0xf80000)
  let u1 : ℕ := u0 ||| ((u0 >>> 5) &&& 0x070007)
  let u2 : ℕ := u1 ||| ((u1 >>> 6) &&& 0x000300)
  ⟨u2 % 256, (u2 >>> 8) % 256, (u2 >>> 16) % 256, (u2 >>> 24) % 256⟩

def color_to_vector3 (c : Color32) : Vector3 :=
  ⟨(c.r : ℚ) / 255, (c.g : ℚ) / 255, (c.b : ℚ) / 255⟩

def vector3_to_color32 (v : Vector3) : Color32 :=
  { r := ratTrunc (saturateQ v.x * 255 + 0.5) % 256
    g := ratTrunc (saturateQ v.y * 255 + 0.5) % 256
    b := ratTrunc (saturateQ v.z * 255 + 0.5) % 256
    a := 255 }

/-- The 5-to-8 bit expansion (i << 3) | (i >> 2) used by init_dxt1_tables. -/
def expand5 (i : ℕ) : ℕ := (i <<< 3) ||| (i >>> 2)

/-- The 6-to-8 bit expansion (i << 2) | (i >> 4) used by init_dxt1_tables. -/
def expand6 (i : ℕ) : ℕ := (i <<< 2) ||| (i >>> 4)

/-! Palette evaluation.  The 4-entry palette array becomes a structure with a
lookup by index.  Byte-field assignments carry the uint8 conversion mod 256. -/

structure Palette where
  p0 : Color32
  p1 : Color32
  p2 : Color32
  p3 : Color32
deriving DecidableEq, Repr

def Palette.get (p : Palette) : ℕ → Color32
  | 0 => p.p0
  | 1 => p.p1
  | 2 => p.p2
  | _ => p.p3

/-- evaluate_palette4_d3d10: entries 2 and 3 from the expanded entries 0, 1. -/
def evaluate_palette4_d3d10 (p0 p1 : Color32) : Color32 × Color32 :=
  (⟨(2 * p0.b + p1.b) / 3 % 256, (2 * p0.g + p1.g) / 3 % 256,
    (2 * p0.r + p1.r) / 3 % 256, 0xFF⟩,
   ⟨(2 * p1.b + p0.b) / 3 % 256, (2 * p1.g + p0.g) / 3 % 256,
    (2 * p1.r + p0.r) / 3 % 256, 0xFF⟩)

/-- evaluate_palette3_d3d10: entry 2 from the expanded entries, entry 3 zero. -/
def evaluate_palette3_d3d10 (p0 p1 : Color32) : Color32 × Color32 :=
  (⟨(p0.b + p1.b) / 2 % 256, (p0.g + p1.g) / 2 % 256,
    (p0.r + p1.r) / 2 % 256, 0xFF⟩,
   Color32.zero)

def evaluate_palette_d3d10 (c0 c1 : Color16) : Palette :=
  let p0 := bitexpand_color16_to_color32 c0
  let p1 := bitexpand_color16_to_color32 c1
  if c0.u > c1.u then
    let e := evaluate_palette4_d3d10 p0 p1
    ⟨p0, p1, e.1, e.2⟩
  else
    let e := evaluate_palette3_d3d10 p0 p1
    ⟨p0, p1, e.1, e.2⟩

/-- evaluate_palette4_amd: entries 2 and 3 from the expanded entries 0, 1. -/
def evaluate_palette4_amd (p0 p1 : Color32) : Color32 × Color32 :=
  (⟨(43 * p0.b + 21 * p1.b + 32) / 8 % 256, (43 * p0.g + 21 * p1.g + 32) / 8 % 256,
    (43 * p0.r + 21 * p1.r + 32) / 8 % 256, 0xFF⟩,
   ⟨(43 * p1.b + 21 * p0.b + 32) / 8 % 256, (43 * p1.g + 21 * p0.g + 32) / 8 % 256,
    (43 * p1.r + 21 * p0.r + 32) / 8 % 256, 0xFF⟩)

/-- evaluate_palette3_amd: entry 2 is computed from the UNEXPANDED 5/6-bit
bitfields of the two Color16 endpoints (c0.r etc.), entry 3 is zero. -/
def evaluate_palette3_amd (c0 c1 : Color16) : Color32 × Color32 :=
  (⟨(c0.b + c1.b + 1) / 2 % 256, (c0.g + c1.g + 1) / 2 % 256,
    (c0.r + c1.r + 1) / 2 % 256, 0xFF⟩,
   Color32.zero)

def evaluate_palette_amd (c0 c1 : Color16) : Palette :=
  let p0 := bitexpand_color16_to_color32 c0
  let p1 := bitexpand_color16_to_color32 c1
  if c0.u > c1.u then
    let e := evaluate_palette4_amd p0 p1
    ⟨p0, p1, e.1, e.2⟩
  else
    let e := evaluate_palette3_amd c0 c1
    ⟨p0, p1, e.1, e.2⟩

/-- evaluate_palette at the default decoder (ICBC_DECODER == Decoder_D3D10). -/
def evaluate_palette (c0 c1 : Color16) : Palette := evaluate_palette_d3d10 c0 c1

structure PaletteV where
  q0 : Vector3
  q1 : Vector3
  q2 : Vector3
  q3 : Vector3
deriving DecidableEq, Repr

def PaletteV.get (p : PaletteV) : ℕ → Vector3
  | 0 => p.q0
  | 1 => p.q1
  | 2 => p.q2
  | _ => p.q3

/-- The Vector3 overload of evaluate_palette. -/
def evaluate_palette_v3 (c0 c1 : Color16) : PaletteV :=
  let p := evaluate_palette c0 c1
  ⟨color_to_vector3 p.p0, color_to_vector3 p.p1,
   color_to_vector3 p.p2, color_to_vector3 p.p3⟩

/-! Error evaluation. -/

/-- evaluate_mse(Vector3 p, Vector3 c, Vector3 w). -/
def evaluate_mse_v (p c w : Vector3) : ℚ :=
  let d := (p - c) * w * (255 : ℚ)
  dot d d

/-- evaluate_mse(Color32 p, Vector3 c, Vector3 w). -/
def evaluate_mse_c (p : Color32) (c w : Vector3) : ℚ :=
  let d := (color_to_vector3 p - c) * w * (255 : ℚ)
  dot d d

/-- evaluate_mse(Vector4[16], weights, color_weights, block): total weighted
error of the block against the input under the default decoder. -/
def evaluate_mse_block (input_colors : ℕ → Vector4) (input_weights : ℕ → ℚ)
    (color_weights : Vector3) (output : BlockDXT1) : ℚ :=
  let palette := evaluate_palette output.col0 output.col1
  (List.range 16).foldl (fun error i =>
    let index := (output.indices >>> (2 * i)) &&& 3
    error + input_weights i * evaluate_mse_c (palette.get index) (input_colors i).xyz color_weights) 0

/-! Index selection. -/

/-- compute_indices4: the five-comparison bit-twiddling index selection. -/
def compute_indices4 (input_colors : ℕ → Vector4) (color_weights : Vector3)
    (palette : PaletteV) : ℕ :=
  (List.range 16).foldl (fun indices i =>
    let c := (input_colors i).xyz
    let d0 := evaluate_mse_v palette.q0 c color_weights
    let d1 := evaluate_mse_v palette.q1 c color_weights
    let d2 := evaluate_mse_v palette.q2 c color_weights
    let d3 := evaluate_mse_v palette.q3 c color_weights
    let b0 : ℕ := if d0 > d3 then 1 else 0
    let b1 : ℕ := if d1 > d2 then 1 else 0
    let b2 : ℕ := if d0 > d2 then 1 else 0
    let b3 : ℕ := if d1 > d3 then 1 else 0
    let b4 : ℕ := if d2 > d3 then 1 else 0
    let x0 := b1 &&& b2
    let x1 := b0 &&& b3
    let x2 := b0 &&& b4
    indices ||| ((x2 ||| ((x0 ||| x1) <<< 1)) <<< (2 * i))) 0

/-- compute_indices: the four-way comparison index selection. -/
def compute_indices (input_colors : ℕ → Vector4) (color_weights : Vector3)
    (palette : PaletteV) : ℕ :=
  (List.range 16).foldl (fun indices i =>
    let c := (input_colors i).xyz
    let d0 := evaluate_mse_v palette.q0 c color_weights
    let d1 := evaluate_mse_v palette.q1 c color_weights
    let d2 := evaluate_mse_v palette.q2 c color_weights
    let d3 := evaluate_mse_v palette.q3 c color_weights
    let index : ℕ :=
      if d0 < d1 ∧ d0 < d2 ∧ d0 < d3 then 0
      else if d1 < d2 ∧ d1 < d3 then 1
      else if d2 < d3 then 2
      else 3
    indices ||| (index <<< (2 * i))) 0

/-! Block output. -/

/-- output_block3: order endpoints for 3-color mode (col0.u <= col1.u). -/
def output_block3 (input_colors : ℕ → Vector4) (color_weights : Vector3)
    (v0 v1 : Vector3) : BlockDXT1 :=
  let color0 := vector3_to_color16 v0
  let color1 := vector3_to_color16 v1
  let (color0, color1) := if color0.u > color1.u then (color1, color0) else (color0, color1)
  let palette := evaluate_palette_v3 color0 color1
  ⟨color0, color1, compute_indices input_colors color_weights palette⟩

/-- output_block4: order endpoints for 4-color mode (col0.u >= col1.u). -/
def output_block4 (input_colors : ℕ → Vector4) (color_weights : Vector3)
    (v0 v1 : Vector3) : BlockDXT1 :=
  let color0 := vector3_to_color16 v0
  let color1 := vector3_to_color16 v1
  let (color0, color1) := if color0.u < color1.u then (color1, color0) else (color0, color1)
  let palette := evaluate_palette_v3 color0 color1
  ⟨color0, color1, compute_indices4 input_colors color_weights palette⟩

/-- optimize_end_points4 (Vector4 overload, standard factors): least squares
fitting of the end points for the given indices; None when the denominator is
within the default epsilon of zero. -/
def optimize_end_points4 (indices : ℕ) (colors : ℕ → Vector4) (count : ℕ) :
    Option (Vector3 × Vector3) :=
  let acc := (List.range count).foldl (fun (acc : ℚ × ℚ × ℚ × Vector3 × Vector3) i =>
    let (alpha2_sum, beta2_sum, alphabeta_sum, alphax_sum, betax_sum) := acc
    let bits := indices >>> (2 * i)
    let beta0 : ℚ := (bits &&& 1 : ℕ)
    let beta : ℚ := if bits &&& 2 ≠ 0 then (1 + beta0) / 3 else beta0
    let alpha : ℚ := 1 - beta
    (alpha2_sum + alpha * alpha, beta2_sum + beta * beta, alphabeta_sum + alpha * beta,
     alphax_sum + alpha * (colors i).xyz, betax_sum + beta * (colors i).xyz))
    (0, 0, 0, 0, 0)
  let (alpha2_sum, beta2_sum, alphabeta_sum, alphax_sum, betax_sum) := acc
  let denom := alpha2_sum * beta2_sum - alphabeta_sum * alphabeta_sum
  if equalQ denom 0 0.0001 then none
  else
    let factor := 1 / denom
    some (Vector3.saturate ((alphax_sum * beta2_sum - betax_sum * alphabeta_sum) * factor),
          Vector3.saturate ((betax_sum * alpha2_sum - alphax_sum * alphabeta_sum) * factor))

/-! Input block processing. -/

/-- is_black: all three channels strictly below 1/8. -/
def is_black (c : Vector3) : Bool :=
  decide (c.x < 1 / 8) && decide (c.y < 1 / 8) && decide (c.z < 1 / 8)

/-- One step of reduce_colors: merge the color into the first accumulator
within L-infinity threshold, else append it. -/
def insertColor (ci : Vector3) (wi : ℚ) : List (Vector3 × ℚ) → List (Vector3 × ℚ)
  | [] => [(ci, wi)]
  | p :: rest =>
    if equal3 p.1 ci (1 / 256) then (p.1, p.2 + wi) :: rest
    else p :: insertColor ci wi rest

/-- reduce_colors: deduplicate the positive-weight texels in input order and
flag whether any of them is near-black.  The returned list holds the reduced
(color, weight) pairs; its length is the reduced count. -/
def reduce_colors (input_colors : ℕ → Vector4) (input_weights : ℕ → ℚ)
    (count : ℕ) : List (Vector3 × ℚ) × Bool :=
  (List.range count).foldl (fun (acc : List (Vector3 × ℚ) × Bool) i =>
    let ci := (input_colors i).xyz
    let wi := input_weights i
    if wi > 0 then
      (insertColor ci wi acc.1, acc.2 || is_black ci)
    else acc) ([], false)

/-- skip_blacks: drop the near-black entries. -/
def skip_blacks (l : List (Vector3 × ℚ)) : List (Vector3 × ℚ) :=
  l.filter (fun p => ¬ is_black p.1)

/-! PCA. -/

def computeCentroid (l : List (Vector3 × ℚ)) : Vector3 :=
  let total := l.foldl (fun t p => t + p.2) 0
  let centroid := l.foldl (fun c p => c + p.2 * p.1) (0 : Vector3)
  centroid * (1 / total)

/-- The six entries of the symmetric covariance matrix, in the order
covariance[0..5] = xx, xy, xz, yy, yz, zz of the source. -/
structure SymMatrix3 where
  xx : ℚ
  xy : ℚ
  xz : ℚ
  yy : ℚ
  yz : ℚ
  zz : ℚ
deriving DecidableEq, Repr

def computeCovariance (l : List (Vector3 × ℚ)) : SymMatrix3 :=
  let centroid := computeCentroid l
  l.foldl (fun (m : SymMatrix3) p =>
    let a := p.1 - centroid
    let b := HMul.hMul (γ := Vector3) a p.2
    ⟨m.xx + a.x * b.x, m.xy + a.x * b.y, m.xz + a.x * b.z,
     m.yy + a.y * b.y, m.yz + a.y * b.z, m.zz + a.z * b.z⟩)
    ⟨0, 0, 0, 0, 0, 0⟩

def estimatePrincipalComponent (m : SymMatrix3) : Vector3 :=
  let row0 : Vector3 := ⟨m.xx, m.xy, m.xz⟩
  let row1 : Vector3 := ⟨m.xy, m.yy, m.yz⟩
  let row2 : Vector3 := ⟨m.xz, m.yz, m.zz⟩
  let r0 := lengthSquared row0
  let r1 := lengthSquared row1
  let r2 := lengthSquared row2
  if r0 > r1 ∧ r0 > r2 then row0
  else if r1 > r2 then row1
  else row2

/-- One iteration of the power method: multiply by the matrix, then divide by
the SIGNED maximum component max(x, max(y, z)) (the source takes no absolute
values). -/
def powerStep (m : SymMatrix3) (v : Vector3) : Vector3 :=
  let x := v.x * m.xx + v.y * m.xy + v.z * m.xz
  let y := v.x * m.xy + v.y * m.yy + v.z * m.yz
  let z := v.x * m.xz + v.y * m.yz + v.z * m.zz
  let norm := max (max x y) z
  (⟨x, y, z⟩ : Vector3) * (1 / norm)

def powerLoop (m : SymMatrix3) : ℕ → Vector3 → Vector3
  | 0, v => v
  | n + 1, v => powerLoop m n (powerStep m v)

def firstEigenVector_PowerMethod (m : SymMatrix3) : Vector3 :=
  if m.xx = 0 ∧ m.yy = 0 ∧ m.zz = 0 then 0
  else powerLoop m 8 (estimatePrincipalComponent m)

def computePrincipalComponent_PowerMethod (l : List (Vector3 × ℚ)) : Vector3 :=
  firstEigenVector_PowerMethod (computeCovariance l)

/-! Summed area table. -/

structure SummedAreaTable where
  r : List ℚ
  g : List ℚ
  b : List ℚ
  w : List ℚ
deriving DecidableEq, Repr

/-- Read a SAT array; entries at count..15 hold the FLT_MAX sentinel. -/
def satGet (l : List ℚ) (i : ℕ) : ℚ := l.getD i fltMax

/-- Stable insertion by projection key, matching the insertion sort of
compute_sat (an element moves left past strictly greater keys only). -/
def insertByKey (key : Vector3 × ℚ → ℚ) (x : Vector3 × ℚ) :
    List (Vector3 × ℚ) → List (Vector3 × ℚ)
  | [] => [x]
  | y :: ys => if key x < key y then x :: y :: ys else y :: insertByKey key x ys

def sortByKey (key : Vector3 × ℚ → ℚ) (l : List (Vector3 × ℚ)) :
    List (Vector3 × ℚ) :=
  l.foldl (fun acc x => insertByKey key x acc) []

/-- Prefix sums of f over the list, in order. -/
def prefixSums (f : Vector3 × ℚ → ℚ) (l : List (Vector3 × ℚ)) : List ℚ :=
  (l.foldl (fun (acc : ℚ × List ℚ) p =>
    let s := acc.1 + f p
    (s, acc.2 ++ [s])) (0, [])).2

/-- compute_sat: project on the principal axis, stably sort, build the four
prefix-sum arrays.  Returns the table and the (unchanged) count. -/
def compute_sat (l : List (Vector3 × ℚ)) : SummedAreaTable × ℕ :=
  let principal := computePrincipalComponent_PowerMethod l
  let sorted := sortByKey (fun p => dot p.1 principal) l
  (⟨prefixSums (fun p => p.1.x * p.2) sorted,
    prefixSums (fun p => p.1.y * p.2) sorted,
    prefixSums (fun p => p.1.z * p.2) sorted,
    prefixSums (fun p => p.2) sorted⟩, l.length)

/-! Cluster fit.  Partition descriptor tables, generated exactly as
init_cluster_tables does (cumulative per input count, deduplicated against the
entries of the previous counts).  The trailing lane-padding replicas are never
read by the embedded scalar (VEC_SIZE == 1) loop and are omitted. -/

structure Combinations where
  c0 : ℕ
  c1 : ℕ
  c2 : ℕ
deriving DecidableEq, Repr

structure Combinations3 where
  c0 : ℕ
  c1 : ℕ
deriving DecidableEq, Repr

/-- The candidate descriptors enumerated for input count t, in loop order. -/
def fourClusterCandidates (t : ℕ) : List Combinations :=
  (List.range (t + 1)).flatMap fun c0 =>
    (List.range (t - c0 + 1)).flatMap fun c1 =>
      (List.range (t - c0 - c1 + 1)).filterMap fun c2 =>
        if c0 = 0 ∧ c1 = 0 ∧ c2 = 0 then none
        else some ⟨c0, c0 + c1, c0 + c1 + c2⟩

/-- s_fourCluster after processing input counts 1..t. -/
def fourClusterList : ℕ → List Combinations
  | 0 => []
  | t + 1 =>
    let prev := fourClusterList t
    prev ++ (fourClusterCandidates (t + 1)).filter (fun c => ¬ prev.contains c)

/-- s_fourClusterTotal[t - 1]. -/
def fourClusterTotal (t : ℕ) : ℕ := (fourClusterList t).length

def threeClusterCandidates (t : ℕ) : List Combinations3 :=
  (List.range (t + 1)).flatMap fun c0 =>
    (List.range (t - c0 + 1)).filterMap fun c1 =>
      if c0 = 0 ∧ c1 = 0 then none
      else some ⟨c0, c0 + c1⟩

def threeClusterList : ℕ → List Combinations3
  | 0 => []
  | t + 1 =>
    let prev := threeClusterList t
    prev ++ (threeClusterCandidates (t + 1)).filter (fun c => ¬ prev.contains c)

def threeClusterTotal (t : ℕ) : ℕ := (threeClusterList t).length

/-- vround of the scalar path: float(int(a + 0.5f)), truncation toward zero. -/
def vroundQ (a : ℚ) : ℚ :=
  let s := a + 1 / 2
  ((if s ≥ 0 then s.floor else -((-s).floor) : ℤ) : ℚ)

/-- vround_ept: snap each channel to its 5- or 6-bit grid by round-to-nearest
of the scaled coordinate. -/
def vround_ept (v : Vector3) : Vector3 :=
  ⟨vroundQ (v.x * 31) * (1 / 31), vroundQ (v.y * 63) * (1 / 63), vroundQ (v.z * 31) * (1 / 31)⟩

/-- Cluster sum lookup: (x, w) of SAT entry c - 1, or zero when c = 0. -/
def satLookup (sat : SummedAreaTable) (c : ℕ) : Vector3 × ℚ :=
  if c ≠ 0 then
    (⟨satGet sat.r (c - 1), satGet sat.g (c - 1), satGet sat.b (c - 1)⟩, satGet sat.w (c - 1))
  else (0, 0)

/-- The candidate endpoints of one least-squares solve.  When the denominator
is exactly zero (all weight in a single cluster) both numerators vanish and
the float code turns the resulting NaNs into zero through saturate; we model
the endpoints as zero directly in that case. -/
def lsqSolve (alpha2_sum beta2_sum alphabeta_sum : ℚ) (alphax_sum betax_sum : Vector3) :
    Vector3 × Vector3 :=
  let denom := alpha2_sum * beta2_sum - alphabeta_sum * alphabeta_sum
  if denom = 0 then (0, 0)
  else
    let factor := 1 / denom
    ((alphax_sum * beta2_sum - betax_sum * alphabeta_sum) * factor,
     (betax_sum * alpha2_sum - alphax_sum * alphabeta_sum) * factor)

/-- cluster_fit_three (scalar path): scan the descriptor-table prefix for the
given count, keep the candidate with strictly smaller error. -/
def cluster_fit_three (sat : SummedAreaTable) (count : ℕ) (metric_sqr : Vector3) :
    Vector3 × Vector3 :=
  let r_sum := satGet sat.r (count - 1)
  let g_sum := satGet sat.g (count - 1)
  let b_sum := satGet sat.b (count - 1)
  let w_sum := satGet sat.w (count - 1)
  let total_order_count := threeClusterTotal count
  let best := ((threeClusterList 16).take total_order_count).foldl
    (fun (best : ℚ × Vector3 × Vector3) e =>
      let (x0, w0) := satLookup sat e.c0
      let (x1r, w1r) := satLookup sat e.c1
      let w2 := w_sum - w1r
      let x1 := x1r - x0
      let w1 := w1r - w0
      let alphabeta_sum := w1 * (1 / 4 : ℚ)
      let alpha2_sum := w0 + alphabeta_sum
      let beta2_sum := w2 + alphabeta_sum
      let alphax_sum := x0 + x1 * (1 / 2 : ℚ)
      let betax_sum := (⟨r_sum, g_sum, b_sum⟩ : Vector3) - alphax_sum
      let (a0, b0) := lsqSolve alpha2_sum beta2_sum alphabeta_sum alphax_sum betax_sum
      let a := vround_ept (Vector3.saturate a0)
      let b := vround_ept (Vector3.saturate b0)
      let e1 := (a * a) * alpha2_sum +
        ((b * b) * beta2_sum + ((a * b) * alphabeta_sum - a * alphax_sum - b * betax_sum) * (2 : ℚ))
      let error := dot e1 metric_sqr
      if error < best.1 then (error, a, b) else best)
    (fltMax, 0, 0)
  (best.2.1, best.2.2)

/-- cluster_fit_four (scalar path). -/
def cluster_fit_four (sat : SummedAreaTable) (count : ℕ) (metric_sqr : Vector3) :
    Vector3 × Vector3 :=
  let r_sum := satGet sat.r (count - 1)
  let g_sum := satGet sat.g (count - 1)
  let b_sum := satGet sat.b (count - 1)
  let w_sum := satGet sat.w (count - 1)
  let total_order_count := fourClusterTotal count
  let best := ((fourClusterList 16).take total_order_count).foldl
    (fun (best : ℚ × Vector3 × Vector3) e =>
      let (x0, w0) := satLookup sat e.c0
      let (x1r, w1r) := satLookup sat e.c1
      let (x2r, w2r) := satLookup sat e.c2
      let w3 := w_sum - w2r
      let x2 := x2r - x1r
      let x1 := x1r - x0
      let w2 := w2r - w1r
      let w1 := w1r - w0
      let alpha2_sum := w2 * (1 / 9 : ℚ) + (w1 * (4 / 9 : ℚ) + w0)
      let beta2_sum := w1 * (1 / 9 : ℚ) + (w2 * (4 / 9 : ℚ) + w3)
      let alphabeta_sum := (w1 + w2) * (2 / 9 : ℚ)
      let alphax_sum := x2 * (1 / 3 : ℚ) + (x1 * (2 / 3 : ℚ) + x0)
      let betax_sum := (⟨r_sum, g_sum, b_sum⟩ : Vector3) - alphax_sum
      let (a0, b0) := lsqSolve alpha2_sum beta2_sum alphabeta_sum alphax_sum betax_sum
      let a := vround_ept (Vector3.saturate a0)
      let b := vround_ept (Vector3.saturate b0)
      let e1 := (a * a) * alpha2_sum +
        ((b * b) * beta2_sum + ((a * b) * alphabeta_sum - a * alphax_sum - b * betax_sum) * (2 : ℚ))
      let error := dot e1 metric_sqr
      if error < best.1 then (error, a, b) else best)
    (fltMax, 0, 0)
  (best.2.1, best.2.2)

/-! Single color compressor. -/

def Lerp13 (a b : ℕ) : ℕ := (a * 2 + b) / 3

/-- The inner loop of PrepareOptTable: scan all max values at a fixed min
value, keeping the (bestErr, max, min) state on strict improvement.  The
absolute differences of the C abs() calls are written as Nat.dist. -/
def prepareOptRow (expand : ℕ → ℕ) (size i mn : ℕ) (st : ℕ × ℕ × ℕ) : ℕ × ℕ × ℕ :=
  (List.range size).foldl (fun (st : ℕ × ℕ × ℕ) mx =>
    let err := Nat.dist (Lerp13 (expand mx) (expand mn)) i * 100 +
      Nat.dist mx mn * 3
    if err < st.1 then (err, mx, mn) else st) st

/-- PrepareOptTable at a single target value i: the (max, min) endpoint pair
minimizing the biased interpolation error, scanned in loop order with strict
improvement. -/
def prepareOpt (expand : ℕ → ℕ) (size i : ℕ) : ℕ × ℕ :=
  ((List.range size).foldl (fun st mn => prepareOptRow expand size i mn st)
    (256 * 100, 0, 0)).2

/-- s_match5[i]: the (max, min) pair for the 5-bit channels. -/
def s_match5 (i : ℕ) : ℕ × ℕ := prepareOpt expand5 32 i

/-- s_match6[i]: the (max, min) pair for the 6-bit channel. -/
def s_match6 (i : ℕ) : ℕ × ℕ := prepareOpt expand6 64 i

/-- compress_dxt1_single_color_optimal. -/
def compress_dxt1_single_color_optimal (c : Color32) : BlockDXT1 :=
  let col0 : Color16 := ⟨(s_match5 c.r).1, (s_match6 c.g).1, (s_match5 c.b).1⟩
  let col1 : Color16 := ⟨(s_match5 c.r).2, (s_match6 c.g).2, (s_match5 c.b).2⟩
  if col0.u < col1.u then ⟨col1, col0, 0xaaaaaaaa ^^^ 0x55555555⟩
  else ⟨col0, col1, 0xaaaaaaaa⟩

/-! Endpoint refinement. -/

/-- The 16-direction perturbation stencil. -/
def deltas : List (ℤ × ℤ × ℤ) :=
  [(1,0,0), (0,1,0), (0,0,1),
   (-1,0,0), (0,-1,0), (0,0,-1),
   (1,1,0), (1,0,1), (0,1,1),
   (-1,-1,0), (-1,0,-1), (0,-1,-1),
   (-1,1,0),
   (1,-1,0), (0,-1,1),
   (0,1,-1)]

/-- Add a perturbation to the three bitfields of a Color16 (mod field width,
the C bitfield assignment semantics). -/
def applyDelta (c : Color16) (d : ℤ × ℤ × ℤ) : Color16 :=
  ⟨(((c.r : ℤ) + d.1).emod 32).toNat,
   (((c.g : ℤ) + d.2.1).emod 64).toNat,
   (((c.b : ℤ) + d.2.2).emod 32).toNat⟩

/-- One perturbation attempt of refine_endpoints: the candidate block built
from the current output at loop index i (delta applied to one endpoint,
degenerate 4-color endpoints fixed up, indices recomputed — the source
evaluates the palette of the current best output here, not of the perturbed
endpoints). -/
def refineAttempt (input_colors : ℕ → Vector4) (color_weights : Vector3)
    (three_color_mode : Bool) (i : ℕ) (output : BlockDXT1) : BlockDXT1 :=
  let d := deltas.getD (i % 16) (0, 0, 0)
  let refined0 :=
    if (i / 16) &&& 1 = 1 then { output with col0 := applyDelta output.col0 d }
    else { output with col1 := applyDelta output.col1 d }
  let refined1 :=
    if three_color_mode then refined0
    else
      let r1 :=
        if refined0.col0.u = refined0.col1.u then
          { refined0 with col1 := { refined0.col1 with g := (refined0.col1.g + 1) % 64 } }
        else refined0
      if r1.col0.u < r1.col1.u then { r1 with col0 := r1.col1, col1 := r1.col0 }
      else r1
  let palette := evaluate_palette_v3 output.col0 output.col1
  { refined1 with indices := compute_indices input_colors color_weights palette }

/-- One iteration of the refine_endpoints loop: keep the candidate if it
strictly improves the error.  Returns (best_error, output, lastImprovement). -/
def refineStep (input_colors : ℕ → Vector4) (input_weights : ℕ → ℚ)
    (color_weights : Vector3) (three_color_mode : Bool) (i lastImprovement : ℕ)
    (best_error : ℚ) (output : BlockDXT1) : ℚ × BlockDXT1 × ℕ :=
  let refined := refineAttempt input_colors color_weights three_color_mode i output
  let refined_error := evaluate_mse_block input_colors input_weights color_weights refined
  if refined_error < best_error then (refined_error, refined, i)
  else (best_error, output, lastImprovement)

/-- The loop and early-out of refine_endpoints, with the remaining
iteration budget as fuel (the C loop bounds i by 256). -/
def refineGo (input_colors : ℕ → Vector4) (input_weights : ℕ → ℚ)
    (color_weights : Vector3) (three_color_mode : Bool) :
    ℕ → ℕ → ℕ → ℚ → BlockDXT1 → ℚ × BlockDXT1
  | 0, _, _, best_error, output => (best_error, output)
  | fuel + 1, i, lastImprovement, best_error, output =>
    let s := refineStep input_colors input_weights color_weights three_color_mode i
      lastImprovement best_error output
    if i - s.2.2 > 32 then (s.1, s.2.1)
    else refineGo input_colors input_weights color_weights three_color_mode fuel
      (i + 1) s.2.2 s.1 s.2.1

/-- refine_endpoints: local perturbation search starting from the given block
and error. -/
def refine_endpoints (input_colors : ℕ → Vector4) (input_weights : ℕ → ℚ)
    (color_weights : Vector3) (three_color_mode : Bool) (input_error : ℚ)
    (output : BlockDXT1) : ℚ × BlockDXT1 :=
  refineGo input_colors input_weights color_weights three_color_mode 256 0 0 input_error output

/-! Top-level compressor. -/

def fit_colors_bbox (l : List (Vector3 × ℚ)) : Vector3 × Vector3 :=
  l.foldl (fun (acc : Vector3 × Vector3) p => (vmax acc.1 p.1, vmin acc.2 p.1))
    (⟨0, 0, 0⟩, ⟨1, 1, 1⟩)

def inset_bbox (c0 c1 : Vector3) : Vector3 × Vector3 :=
  let bias : ℚ := 8 / 255 / 16
  let inset := (c0 - c1) / (16 : ℚ) - scalar_to_vector3 bias
  ((c0 - inset).saturate, (c1 + inset).saturate)

def select_diagonal (l : List (Vector3 × ℚ)) (c0 c1 : Vector3) : Vector3 × Vector3 :=
  let center := (c0 + c1) * (1 / 2 : ℚ)
  let cov := l.foldl (fun (acc : ℚ × ℚ) p =>
    let t := p.1 - center
    (acc.1 + t.x * t.z, acc.2 + t.y * t.z)) (0, 0)
  let (x0, x1) := if cov.1 < 0 then (c1.x, c0.x) else (c0.x, c1.x)
  let (y0, y1) := if cov.2 < 0 then (c1.y, c0.y) else (c0.y, c1.y)
  (⟨x0, y0, c0.z⟩, ⟨x1, y1, c1.z⟩)

/-- compress_dxt1_cluster_fit: best 4-cluster block, then optionally the best
3-cluster block (over the black-skipped set when requested). -/
def compress_dxt1_cluster_fit (input_colors : ℕ → Vector4) (input_weights : ℕ → ℚ)
    (l : List (Vector3 × ℚ)) (color_weights : Vector3)
    (three_color_mode use_transparent_black : Bool) : BlockDXT1 × ℚ :=
  let metric_sqr := color_weights * color_weights
  let (sat, sat_count) := compute_sat l
  let (start4, end4) := cluster_fit_four sat sat_count metric_sqr
  let output := output_block4 input_colors color_weights start4 end4
  let best_error := evaluate_mse_block input_colors input_weights color_weights output
  if three_color_mode then
    let sat3? : Option (SummedAreaTable × ℕ) :=
      if use_transparent_black then
        let tmp := skip_blacks l
        if tmp.length = 0 then none else some (compute_sat tmp)
      else some (sat, sat_count)
    match sat3? with
    | none => (output, best_error)
    | some (sat3, count3) =>
      let (start3, end3) := cluster_fit_three sat3 count3 metric_sqr
      let three_color_block := output_block3 input_colors color_weights start3 end3
      let three_color_error :=
        evaluate_mse_block input_colors input_weights color_weights three_color_block
      if three_color_error < best_error then (three_color_block, three_color_error)
      else (output, best_error)
  else (output, best_error)

/-- Keep the candidate (block, error) pair when it strictly improves on the
current one (the repeated `if (e < error) { error = e; *output = block; }`
pattern of compress_dxt1). -/
def pickBetter (cur cand : BlockDXT1 × ℚ) : BlockDXT1 × ℚ :=
  if cand.2 < cur.2 then cand else cur

/-- The least-squares endpoint optimization stage of compress_dxt1: when
optimize_end_points4 produced endpoints, build their block and keep it if it
improves on r0. -/
def optStage (input_colors : ℕ → Vector4) (input_weights : ℕ → ℚ)
    (color_weights : Vector3) (r0 : BlockDXT1 × ℚ) :
    Option (Vector3 × Vector3) → BlockDXT1 × ℚ
  | some (c0, c1) =>
    let ob := output_block4 input_colors color_weights c0 c1
    pickBetter r0 (ob, evaluate_mse_block input_colors input_weights color_weights ob)
  | none => r0

/-- compress_dxt1: the top-level block compressor.  Returns the block and the
error (the C function writes the block through a pointer and returns the
error). -/
def compress_dxt1 (input_colors : ℕ → Vector4) (input_weights : ℕ → ℚ)
    (color_weights : Vector3) (three_color_mode hq : Bool) : BlockDXT1 × ℚ :=
  let (colors, use_transparent_black) := reduce_colors input_colors input_weights 16
  if colors.length = 0 then
    (⟨⟨0, 0, 0⟩, ⟨0, 0, 0⟩, 0⟩, 0)
  else if colors.length = 1 then
    let output := compress_dxt1_single_color_optimal (vector3_to_color32 (colors.headI.1))
    (output, evaluate_mse_block input_colors input_weights color_weights output)
  else
    let bb := fit_colors_bbox colors
    let ib := inset_bbox bb.1 bb.2
    let sd := select_diagonal colors ib.1 ib.2
    let output0 := output_block4 input_colors color_weights sd.1 sd.2
    let r0 := (output0, evaluate_mse_block input_colors input_weights color_weights output0)
    let r1 := optStage input_colors input_weights color_weights r0
      (optimize_end_points4 output0.indices input_colors 16)
    let r2 := pickBetter r1 (compress_dxt1_cluster_fit input_colors input_weights colors
      color_weights three_color_mode use_transparent_black)
    if hq then
      let rr := refine_endpoints input_colors input_weights color_weights three_color_mode
        r2.2 r2.1
      (rr.2, rr.1)
    else r2

/-- The 4-color-mode block invariant: the packed endpoints are ordered
endpoint0.u >= endpoint1.u. -/
def BlockOrdered (b : BlockDXT1) : Prop := b.col1.u ≤ b.col0.u

/-! Concrete inputs used by the end-to-end theorems, and the spec-side
definitions that the claims are compared against. -/

/-- The solid red block: 16 texels of RGBA (255, 0, 0, 255), as the [0,1]
floats the encoder receives. -/
def solidRed : ℕ → Vector4 := fun _ => ⟨1, 0, 0, 1⟩

/-- All-one per-texel weights. -/
def unitWeights : ℕ → ℚ := fun _ => 1

/-- A block of pure red, pure blue and their exact 3-color-mode midpoint
(127, 0, 127), with weight on the first three texels only.  None of the
texels is near-black. -/
def redMidBlue : ℕ → Vector4 := fun i =>
  if i = 0 then ⟨1, 0, 0, 1⟩
  else if i = 1 then ⟨127 / 255, 0, 127 / 255, 1⟩
  else if i = 2 then ⟨0, 0, 1, 1⟩
  else ⟨1, 0, 0, 1⟩

/-- Weight 1 on the first three texels, 0 elsewhere. -/
def firstThreeWeights : ℕ → ℚ := fun i => if i < 3 then 1 else 0

/-- One iteration of the power method as the spec describes it: multiply by
the matrix, then divide by the largest component in ABSOLUTE value.
Modelled from the spec words for comparison with the source powerStep. -/
def powerStepAbsSpec (m : SymMatrix3) (v : Vector3) : Vector3 :=
  let x := v.x * m.xx + v.y * m.xy + v.z * m.xz
  let y := v.x * m.xy + v.y * m.yy + v.z * m.yz
  let z := v.x * m.xz + v.y * m.yz + v.z * m.zz
  let norm := max (max |x| |y|) |z|
  (⟨x, y, z⟩ : Vector3) * (1 / norm)

/-- The power iteration as the claim states it: 8 iterations of the
absolute-value-normalized step, zero vector on zero diagonal. -/
def firstEigenVector_absSpec (m : SymMatrix3) : Vector3 :=
  if m.xx = 0 ∧ m.yy = 0 ∧ m.zz = 0 then 0
  else (powerStepAbsSpec m)^[8] (estimatePrincipalComponent m)

/-- The power iteration as the source computes it, described with the signed
maximum; used as the amended form of the claim. -/
def firstEigenVector_signedSpec (m : SymMatrix3) : Vector3 :=
  if m.xx = 0 ∧ m.yy = 0 ∧ m.zz = 0 then 0
  else (powerStep m)^[8] (estimatePrincipalComponent m)


/-! Helper lemmas for evaluating the single-color tables in stages. -/

theorem foldl_fix {α β : Type} {f : β → α → β} {st : β} (h : ∀ a, f st a = st) :
    ∀ l : List α, l.foldl f st = st
  | [] => rfl
  | a :: l => by rw [List.foldl_cons, h a]; exact foldl_fix h l

/-- A (0, max, min) state is final: no candidate has error below zero. -/
theorem prepareOptRow_zero (expand : ℕ → ℕ) (size i mn mx mn' : ℕ) :
    prepareOptRow expand size i mn (0, mx, mn') = (0, mx, mn') := by
  unfold prepareOptRow
  refine foldl_fix (fun a => ?_) _
  simp

theorem tailFixed5 (l : List ℕ) :
    l.foldl (fun st mn => prepareOptRow expand5 32 0 mn st) (0, 0, 0) = (0, 0, 0) :=
  @foldl_fix ℕ (ℕ × ℕ × ℕ) (fun st mn => prepareOptRow expand5 32 0 mn st) (0, 0, 0)
    (fun a => prepareOptRow_zero expand5 32 0 a 0 0) l

theorem tailFixed6 (l : List ℕ) :
    l.foldl (fun st mn => prepareOptRow expand6 64 0 mn st) (0, 0, 0) = (0, 0, 0) :=
  @foldl_fix ℕ (ℕ × ℕ × ℕ) (fun st mn => prepareOptRow expand6 64 0 mn st) (0, 0, 0)
    (fun a => prepareOptRow_zero expand6 64 0 a 0 0) l

theorem s_match5_zero_fold :
    ((List.range 32 : List ℕ).foldl (fun st mn => prepareOptRow expand5 32 0 mn st)
      (256 * 100, 0, 0)) = (0, 0, 0) := by
  rw [show (List.range 32 : List ℕ) = [0] ++ [1,2,3,4,5,6,7,8,9,10,11,12,13,14,15,16,17,
    18,19,20,21,22,23,24,25,26,27,28,29,30,31] from by decide]
  rw [List.foldl_append,
    show ([0] : List ℕ).foldl (fun st mn => prepareOptRow expand5 32 0 mn st)
      (256 * 100, 0, 0) = (0, 0, 0) from by decide,
    tailFixed5]

theorem s_match5_def (i : ℕ) : s_match5 i = prepareOpt expand5 32 i := rfl

theorem s_match6_def (i : ℕ) : s_match6 i = prepareOpt expand6 64 i := rfl

theorem prepareOpt_def (expand : ℕ → ℕ) (size i : ℕ) :
    prepareOpt expand size i =
      ((List.range size).foldl (fun st mn => prepareOptRow expand size i mn st)
        (256 * 100, 0, 0)).2 := rfl

theorem s_match5_zero : s_match5 0 = (0, 0) :=
  (s_match5_def 0).trans ((prepareOpt_def expand5 32 0).trans
    ((congrArg Prod.snd s_match5_zero_fold).trans rfl))

theorem s_match6_zero_fold :
    ((List.range 64 : List ℕ).foldl (fun st mn => prepareOptRow expand6 64 0 mn st)
      (256 * 100, 0, 0)) = (0, 0, 0) := by
  rw [show (List.range 64 : List ℕ) = [0] ++ [1,2,3,4,5,6,7,8,9,10,11,12,13,14,15,16,17,
    18,19,20,21,22,23,24,25,26,27,28,29,30,31,32,33,34,35,36,37,38,39,40,41,42,43,44,45,
    46,47,48,49,50,51,52,53,54,55,56,57,58,59,60,61,62,63] from by decide]
  rw [List.foldl_append,
    show ([0] : List ℕ).foldl (fun st mn => prepareOptRow expand6 64 0 mn st)
      (256 * 100, 0, 0) = (0, 0, 0) from by decide,
    tailFixed6]

theorem s_match6_zero : s_match6 0 = (0, 0) :=
  (s_match6_def 0).trans ((prepareOpt_def expand6 64 0).trans
    ((congrArg Prod.snd s_match6_zero_fold).trans rfl))

theorem s_match5_255_fold :
    ((List.range 32 : List ℕ).foldl (fun st mn => prepareOptRow expand5 32 255 mn st)
      (256 * 100, 0, 0)) = (0, 31, 31) := by
  rw [show (List.range 32 : List ℕ) = [0,1] ++ ([2,3] ++ ([4,5] ++ ([6,7] ++ ([8,9] ++ ([10,11] ++ ([12,13] ++ ([14,15] ++ ([16,17] ++ ([18,19] ++ ([20,21] ++ ([22,23] ++ ([24,25] ++ ([26,27] ++ ([28,29] ++ [30,31])))))))))))))) from by decide]
  rw [List.foldl_append,
    show ([0,1] : List ℕ).foldl (fun st mn => prepareOptRow expand5 32 255 mn st)
      (256 * 100, 0, 0) = (8390, 31, 1) from by decide]
  rw [List.foldl_append,
    show ([2,3] : List ℕ).foldl (fun st mn => prepareOptRow expand5 32 255 mn st)
      (8390, 31, 1) = (7784, 31, 3) from by decide]
  rw [List.foldl_append,
    show ([4,5] : List ℕ).foldl (fun st mn => prepareOptRow expand5 32 255 mn st)
      (7784, 31, 3) = (7278, 31, 5) from by decide]
  rw [List.foldl_append,
    show ([6,7] : List ℕ).foldl (fun st mn => prepareOptRow expand5 32 255 mn st)
      (7278, 31, 5) = (6672, 31, 7) from by decide]
  rw [List.foldl_append,
    show ([8,9] : List ℕ).foldl (fun st mn => prepareOptRow expand5 32 255 mn st)
      (6672, 31, 7) = (6166, 31, 9) from by decide]
  rw [List.foldl_append,
    show ([10,11] : List ℕ).foldl (fun st mn => prepareOptRow expand5 32 255 mn st)
      (6166, 31, 9) = (5560, 31, 11) from by decide]
  rw [List.foldl_append,
    show ([12,13] : List ℕ).foldl (fun st mn => prepareOptRow expand5 32 255 mn st)
      (5560, 31, 11) = (5054, 31, 13) from by decide]
  rw [List.foldl_append,
    show ([14,15] : List ℕ).foldl (fun st mn => prepareOptRow expand5 32 255 mn st)
      (5054, 31, 13) = (4448, 31, 15) from by decide]
  rw [List.foldl_append,
    show ([16,17] : List ℕ).foldl (fun st mn => prepareOptRow expand5 32 255 mn st)
      (4448, 31, 15) = (3942, 31, 17) from by decide]
  rw [List.foldl_append,
    show ([18,19] : List ℕ).foldl (fun st mn => prepareOptRow expand5 32 255 mn st)
      (3942, 31, 17) = (3336, 31, 19) from by decide]
  rw [List.foldl_append,
    show ([20,21] : List ℕ).foldl (fun st mn => prepareOptRow expand5 32 255 mn st)
      (3336, 31, 19) = (2830, 31, 21) from by decide]
  rw [List.foldl_append,
    show ([22,23] : List ℕ).foldl (fun st mn => prepareOptRow expand5 32 255 mn st)
      (2830, 31, 21) = (2224, 31, 23) from by decide]
  rw [List.foldl_append,
    show ([24,25] : List ℕ).foldl (fun st mn => prepareOptRow expand5 32 255 mn st)
      (2224, 31, 23) = (1718, 31, 25) from by decide]
  rw [List.foldl_append,
    show ([26,27] : List ℕ).foldl (fun st mn => prepareOptRow expand5 32 255 mn st)
      (1718, 31, 25) = (1112, 31, 27) from by decide]
  rw [List.foldl_append,
    show ([28,29] : List ℕ).foldl (fun st mn => prepareOptRow expand5 32 255 mn st)
      (1112, 31, 27) = (606, 31, 29) from by decide]
  rw [
    show ([30,31] : List ℕ).foldl (fun st mn => prepareOptRow expand5 32 255 mn st)
      (606, 31, 29) = (0, 31, 31) from by decide]

theorem s_match5_255 : s_match5 255 = (31, 31) :=
  (s_match5_def 255).trans ((prepareOpt_def expand5 32 255).trans
    ((congrArg Prod.snd s_match5_255_fold).trans rfl))

/-- What compress_dxt1 returns on the solid red block, for every flag pair. -/
theorem compress_solid_red (three_color_mode hq : Bool) :
    compress_dxt1 solidRed unitWeights ⟨1, 1, 1⟩ three_color_mode hq =
      (⟨⟨31, 0, 0⟩, ⟨31, 0, 0⟩, 0xaaaaaaaa⟩, 0) := by
  have hred : reduce_colors solidRed unitWeights 16 = ([(⟨1, 0, 0⟩, 16)], false) := by decide
  have hvc : vector3_to_color32 ⟨1, 0, 0⟩ = ⟨0, 0, 255, 255⟩ := by decide
  have hsco : compress_dxt1_single_color_optimal ⟨0, 0, 255, 255⟩ =
      ⟨⟨31, 0, 0⟩, ⟨31, 0, 0⟩, 0xaaaaaaaa⟩ := by
    simp only [compress_dxt1_single_color_optimal, s_match5_255, s_match5_zero, s_match6_zero]
    decide
  have hmse : evaluate_mse_block solidRed unitWeights ⟨1, 1, 1⟩
      ⟨⟨31, 0, 0⟩, ⟨31, 0, 0⟩, 0xaaaaaaaa⟩ = 0 := by decide
  simp only [compress_dxt1, hred, hvc, hsco, hmse, List.headI, List.length_cons,
    List.length_nil, Nat.reduceAdd, reduceIte]
  decide


/-! Endpoint-ordering helper lemmas: every 4-color-mode producer emits a
block with col0.u >= col1.u, and refinement preserves that invariant. -/

theorem output_block4_le (ic : ℕ → Vector4) (cw v0 v1 : Vector3) :
    BlockOrdered (output_block4 ic cw v0 v1) := by
  unfold output_block4 BlockOrdered
  dsimp only
  by_cases h : (vector3_to_color16 v0).u < (vector3_to_color16 v1).u
  · rw [if_pos h]
    exact le_of_lt h
  · rw [if_neg h]
    exact le_of_not_lt h

theorem single_color_optimal_le (c : Color32) :
    BlockOrdered (compress_dxt1_single_color_optimal c) := by
  unfold compress_dxt1_single_color_optimal BlockOrdered
  dsimp only
  by_cases h : (⟨(s_match5 c.r).1, (s_match6 c.g).1, (s_match5 c.b).1⟩ : Color16).u <
      (⟨(s_match5 c.r).2, (s_match6 c.g).2, (s_match5 c.b).2⟩ : Color16).u
  · rw [if_pos h]
    exact le_of_lt h
  · rw [if_neg h]
    exact le_of_not_lt h

theorem cluster_fit_false_le (ic : ℕ → Vector4) (iw : ℕ → ℚ) (l : List (Vector3 × ℚ))
    (cw : Vector3) (ub : Bool) :
    BlockOrdered (compress_dxt1_cluster_fit ic iw l cw false ub).1 := by
  unfold compress_dxt1_cluster_fit
  simp only [Bool.false_eq_true, if_false]
  exact output_block4_le ic cw _ _

theorem block_fix_ordered (r1 : BlockDXT1) :
    ((if r1.col0.u < r1.col1.u then { r1 with col0 := r1.col1, col1 := r1.col0 } else r1)).col1.u ≤
      ((if r1.col0.u < r1.col1.u then { r1 with col0 := r1.col1, col1 := r1.col0 } else r1)).col0.u := by
  split
  next h => exact le_of_lt h
  next h => exact le_of_not_lt h

theorem refineAttempt_ordered (ic : ℕ → Vector4) (cw : Vector3) (i : ℕ) (out : BlockDXT1) :
    BlockOrdered (refineAttempt ic cw false i out) := by
  unfold refineAttempt BlockOrdered
  dsimp only
  simp only [Bool.false_eq_true, if_false]
  exact block_fix_ordered _

theorem refineStep_fst_le (ic : ℕ → Vector4) (iw : ℕ → ℚ) (cw : Vector3) (tc : Bool)
    (i li : ℕ) (best : ℚ) (out : BlockDXT1) :
    (refineStep ic iw cw tc i li best out).1 ≤ best := by
  simp only [refineStep]
  split
  next h => exact le_of_lt h
  next _ => exact le_refl _

theorem refineStep_ordered (ic : ℕ → Vector4) (iw : ℕ → ℚ) (cw : Vector3)
    (i li : ℕ) (best : ℚ) (out : BlockDXT1) (h : BlockOrdered out) :
    BlockOrdered (refineStep ic iw cw false i li best out).2.1 := by
  simp only [refineStep]
  split
  next _ => exact refineAttempt_ordered ic cw i out
  next _ => exact h

theorem refineGo_fst_le (ic : ℕ → Vector4) (iw : ℕ → ℚ) (cw : Vector3) (tc : Bool) :
    ∀ (fuel i li : ℕ) (best : ℚ) (out : BlockDXT1),
      (refineGo ic iw cw tc fuel i li best out).1 ≤ best := by
  intro fuel
  induction fuel with
  | zero => intro i li best out; exact le_refl _
  | succ k ih =>
    intro i li best out
    simp only [refineGo]
    split
    · exact refineStep_fst_le ic iw cw tc i li best out
    · exact le_trans (ih _ _ _ _) (refineStep_fst_le ic iw cw tc i li best out)

theorem refineGo_snd_ordered (ic : ℕ → Vector4) (iw : ℕ → ℚ) (cw : Vector3) :
    ∀ (fuel i li : ℕ) (best : ℚ) (out : BlockDXT1),
      BlockOrdered out →
      BlockOrdered (refineGo ic iw cw false fuel i li best out).2 := by
  intro fuel
  induction fuel with
  | zero => intro i li best out h; exact h
  | succ k ih =>
    intro i li best out h
    simp only [refineGo]
    split
    · exact refineStep_ordered ic iw cw i li best out h
    · exact ih _ _ _ _ (refineStep_ordered ic iw cw i li best out h)

theorem pickBetter_ordered (cur cand : BlockDXT1 × ℚ)
    (h1 : BlockOrdered cur.1) (h2 : BlockOrdered cand.1) :
    BlockOrdered (pickBetter cur cand).1 := by
  unfold pickBetter
  split
  next _ => exact h2
  next _ => exact h1

theorem optStage_ordered (ic : ℕ → Vector4) (iw : ℕ → ℚ) (cw : Vector3)
    (r0 : BlockDXT1 × ℚ) (o : Option (Vector3 × Vector3)) (h : BlockOrdered r0.1) :
    BlockOrdered (optStage ic iw cw r0 o).1 := by
  match o with
  | none => exact h
  | some (c0, c1) => exact pickBetter_ordered _ _ h (output_block4_le ic cw c0 c1)

/-- With three_color_mode = false every path of compress_dxt1 emits an
ordered (4-color-mode or degenerate) block. -/
theorem compress_dxt1_ordered (ic : ℕ → Vector4) (iw : ℕ → ℚ) (cw : Vector3) (hq : Bool) :
    BlockOrdered (compress_dxt1 ic iw cw false hq).1 := by
  rcases hred : reduce_colors ic iw 16 with ⟨colors, ub⟩
  simp only [compress_dxt1, hred]
  by_cases h0 : colors.length = 0
  · simp only [if_pos h0]
    exact Nat.le_refl _
  · simp only [if_neg h0]
    by_cases h1 : colors.length = 1
    · simp only [if_pos h1]
      exact single_color_optimal_le _
    · simp only [if_neg h1]
      cases hq with
      | false =>
        simp only [Bool.false_eq_true, if_false]
        exact pickBetter_ordered _ _
          (optStage_ordered ic iw cw _ _ (output_block4_le ic cw _ _))
          (cluster_fit_false_le ic iw colors cw ub)
      | true =>
        simp only [if_true]
        exact refineGo_snd_ordered ic iw cw 256 0 0 _ _
          (pickBetter_ordered _ _
            (optStage_ordered ic iw cw _ _ (output_block4_le ic cw _ _))
            (cluster_fit_false_le ic iw colors cw ub))

/-! Claim theorems. -/

/-- C1 counterexample: on the solid red block the index word the encoder
writes is 0xAAAAAAAA, not the 0x00000000 the claim states (shown at
three_color_mode = false, hq = false). -/
theorem C1_counterexample :
    (compress_dxt1 solidRed unitWeights ⟨1, 1, 1⟩ false false).1.indices ≠ 0x00000000 := by
  rw [compress_solid_red false false]
  decide

/-- C1 (corrected): for every value of the three_color_mode and hq flags,
compressing 16 copies of RGBA (255,0,0,255) with unit weights and channel
weights (1,1,1) yields endpoint0 = 0xF800, endpoint1 = 0xF800, index word
0xAAAAAAAA (all texels on palette entry 2), and error 0. -/
theorem C1_theorem (three_color_mode hq : Bool) :
    (compress_dxt1 solidRed unitWeights ⟨1, 1, 1⟩ three_color_mode hq).1.col0.u = 0xF800 ∧
    (compress_dxt1 solidRed unitWeights ⟨1, 1, 1⟩ three_color_mode hq).1.col1.u = 0xF800 ∧
    (compress_dxt1 solidRed unitWeights ⟨1, 1, 1⟩ three_color_mode hq).1.indices = 0xAAAAAAAA ∧
    (compress_dxt1 solidRed unitWeights ⟨1, 1, 1⟩ three_color_mode hq).2 = 0 := by
  rw [compress_solid_red three_color_mode hq]
  decide

/-- C2 counterexample: at the equal endpoints 0xF800, 0xF800 (3-color mode,
c0.u not greater than c1.u), the AMD palette entry 2 red channel is
(31 + 31 + 1) / 2 = 31, not (p0 + p1 + 1) / 2 = 255 computed on the
bit-expanded 8-bit values. -/
theorem C2_counterexample :
    (⟨31, 0, 0⟩ : Color16).u ≤ (⟨31, 0, 0⟩ : Color16).u ∧
    (evaluate_palette_amd ⟨31, 0, 0⟩ ⟨31, 0, 0⟩).p2.r ≠
      ((bitexpand_color16_to_color32 ⟨31, 0, 0⟩).r +
        (bitexpand_color16_to_color32 ⟨31, 0, 0⟩).r + 1) / 2 := by
  refine ⟨le_refl _, ?_⟩
  decide

/-- C2 (corrected): in 3-color mode (c0.u <= c1.u) the AMD palette entry 2 is
(e0 + e1 + 1) / 2 computed per channel on the UNEXPANDED 5-bit (r, b) and
6-bit (g) endpoint bitfields, with alpha 0xFF; entry 3 is all zeros. -/
theorem C2_theorem (c0 c1 : Color16) (hr0 : c0.r < 32) (hg0 : c0.g < 64) (hb0 : c0.b < 32)
    (hr1 : c1.r < 32) (hg1 : c1.g < 64) (hb1 : c1.b < 32) (hle : c0.u ≤ c1.u) :
    (evaluate_palette_amd c0 c1).p2 =
      ⟨(c0.b + c1.b + 1) / 2, (c0.g + c1.g + 1) / 2, (c0.r + c1.r + 1) / 2, 0xFF⟩ ∧
    (evaluate_palette_amd c0 c1).p3 = ⟨0, 0, 0, 0⟩ := by
  have hng : ¬ (c0.u > c1.u) := not_lt.mpr hle
  unfold evaluate_palette_amd
  rw [if_neg hng]
  unfold evaluate_palette3_amd
  refine ⟨?_, rfl⟩
  show (⟨(c0.b + c1.b + 1) / 2 % 256, (c0.g + c1.g + 1) / 2 % 256,
    (c0.r + c1.r + 1) / 2 % 256, 0xFF⟩ : Color32) = _
  rw [Nat.mod_eq_of_lt (show (c0.b + c1.b + 1) / 2 < 256 by omega),
    Nat.mod_eq_of_lt (show (c0.g + c1.g + 1) / 2 < 256 by omega),
    Nat.mod_eq_of_lt (show (c0.r + c1.r + 1) / 2 < 256 by omega)]

/-- C2 witness: the corrected statement at the endpoints (1,2,3) and (5,6,7). -/
theorem C2_witness :
    (evaluate_palette_amd ⟨1, 2, 3⟩ ⟨5, 6, 7⟩).p2 =
      ⟨(3 + 7 + 1) / 2, (2 + 6 + 1) / 2, (1 + 5 + 1) / 2, 0xFF⟩ ∧
    (evaluate_palette_amd ⟨1, 2, 3⟩ ⟨5, 6, 7⟩).p3 = ⟨0, 0, 0, 0⟩ :=
  C2_theorem ⟨1, 2, 3⟩ ⟨5, 6, 7⟩ (by decide) (by decide) (by decide) (by decide)
    (by decide) (by decide) (by decide)

/-- C3 counterexample: on the positive-semidefinite matrix with entries
xx=36, xy=36, xz=-18, yy=36, yz=-18, zz=49 (a covariance-shaped matrix),
the source power iteration does not compute the vector the spec-described
absolute-value normalization computes. -/
theorem C3_counterexample :
    firstEigenVector_PowerMethod ⟨36, 36, -18, 36, -18, 49⟩ ≠
      firstEigenVector_absSpec ⟨36, 36, -18, 36, -18, 49⟩ := by
  decide

/-- C3 (corrected): the power iteration performs exactly 8 iterations, each
multiplying the vector by the covariance matrix and then dividing it by
max(vx, vy, vz), the SIGNED maximum component (no absolute values are
taken); if all three diagonal entries are zero it returns the zero vector. -/
theorem C3_theorem (m : SymMatrix3) :
    firstEigenVector_PowerMethod m = firstEigenVector_signedSpec m := by
  have hiter : ∀ (n : ℕ) (v : Vector3), powerLoop m n v = (powerStep m)^[n] v := by
    intro n
    induction n with
    | zero => intro v; rfl
    | succ k ih =>
      intro v
      rw [powerLoop, ih, Function.iterate_succ_apply]
  unfold firstEigenVector_PowerMethod firstEigenVector_signedSpec
  split
  · rfl
  · exact hiter 8 _

/-- C7 counterexample: quantizing 1/31 on a 5-bit channel gives 1, which
bit-expands to 8, and 8/255 is not 1/31; likewise on the 6-bit channel
1/63 quantizes to 1, expanding to 4, and 4/255 is not 1/63. -/
theorem C7_counterexample :
    ((bitexpand_color16_to_color32 (vector3_to_color16 ⟨1 / 31, 0, 1 / 31⟩)).r : ℚ) / 255 ≠
      1 / 31 ∧
    ((bitexpand_color16_to_color32 (vector3_to_color16 ⟨0, 1 / 63, 0⟩)).g : ℚ) / 255 ≠
      1 / 63 := by
  decide

/-- C7 (corrected): quantization is the identity on the bit-expanded grid:
for every v of the form expand5(k)/255 with k in [0,31], quantizing v on a
5-bit channel returns k and bit-expanding back yields exactly v; likewise
for expand6(k)/255 on the 6-bit channel. -/
theorem C7_theorem :
    (∀ k : Fin 32,
      (vector3_to_color16 ⟨(expand5 k.1 : ℚ) / 255, 0, (expand5 k.1 : ℚ) / 255⟩).r = k.1 ∧
      ((bitexpand_color16_to_color32
        (vector3_to_color16 ⟨(expand5 k.1 : ℚ) / 255, 0, (expand5 k.1 : ℚ) / 255⟩)).r : ℚ) /
          255 = (expand5 k.1 : ℚ) / 255) ∧
    (∀ k : Fin 64,
      (vector3_to_color16 ⟨0, (expand6 k.1 : ℚ) / 255, 0⟩).g = k.1 ∧
      ((bitexpand_color16_to_color32
        (vector3_to_color16 ⟨0, (expand6 k.1 : ℚ) / 255, 0⟩)).g : ℚ) / 255 =
        (expand6 k.1 : ℚ) / 255) := by
  decide

/-- C8: if all 16 input weights are zero, the reduced count is 0 and
compress_dxt1 writes the all-zeros block and returns error 0. -/
theorem C8_theorem (input_colors : ℕ → Vector4) (color_weights : Vector3)
    (three_color_mode hq : Bool) (input_weights : ℕ → ℚ)
    (hw : ∀ i, input_weights i = 0) :
    compress_dxt1 input_colors input_weights color_weights three_color_mode hq =
      (⟨⟨0, 0, 0⟩, ⟨0, 0, 0⟩, 0⟩, 0) := by
  have hred : reduce_colors input_colors input_weights 16 = ([], false) := by
    unfold reduce_colors
    refine foldl_fix (fun i => ?_) _
    rw [hw i]
    exact if_neg (lt_irrefl 0)
  simp only [compress_dxt1, hred, List.length_nil, reduceIte]

/-- C8 witness: the all-zero-weight behavior at a concrete input. -/
theorem C8_witness :
    compress_dxt1 solidRed (fun _ => 0) ⟨1, 1, 1⟩ true true =
      (⟨⟨0, 0, 0⟩, ⟨0, 0, 0⟩, 0⟩, 0) :=
  C8_theorem solidRed ⟨1, 1, 1⟩ true true (fun _ => 0) (fun _ => rfl)

/-- C9: the single-color-optimal block always has col0.u >= col1.u, and its
16 two-bit indices are all equal: the index word is 0xAAAAAAAA (every texel
on entry 2) when the table pair needed no endpoint swap, and 0xFFFFFFFF
(every texel on entry 3) after a swap. -/
theorem C9_theorem (c : Color32) :
    (compress_dxt1_single_color_optimal c).col1.u ≤
      (compress_dxt1_single_color_optimal c).col0.u ∧
    (if (⟨(s_match5 c.r).1, (s_match6 c.g).1, (s_match5 c.b).1⟩ : Color16).u <
        (⟨(s_match5 c.r).2, (s_match6 c.g).2, (s_match5 c.b).2⟩ : Color16).u
      then (compress_dxt1_single_color_optimal c).indices = 0xFFFFFFFF
      else (compress_dxt1_single_color_optimal c).indices = 0xAAAAAAAA) := by
  unfold compress_dxt1_single_color_optimal
  by_cases h : (⟨(s_match5 c.r).1, (s_match6 c.g).1, (s_match5 c.b).1⟩ : Color16).u <
      (⟨(s_match5 c.r).2, (s_match6 c.g).2, (s_match5 c.b).2⟩ : Color16).u
  · rw [if_pos h, if_pos h]
    exact ⟨le_of_lt h, (by decide : (2863311530 ^^^ 1431655765 : ℕ) = 4294967295)⟩
  · rw [if_neg h, if_neg h]
    exact ⟨le_of_not_lt h, rfl⟩

/-- C10: reduce_colors depends only on the texels of positive weight: two
input blocks agreeing on every texel whose weight is positive in either
block reduce identically (count, colors, weights and the any_black flag);
and when no positive-weight texel is near-black the flag stays false, so in
particular a near-black texel of weight zero never sets it. -/
theorem C10_theorem :
    (∀ (colors1 colors2 : ℕ → Vector4) (weights1 weights2 : ℕ → ℚ) (n : ℕ),
      (∀ i, i < n → (0 < weights1 i ∨ 0 < weights2 i) →
        colors1 i = colors2 i ∧ weights1 i = weights2 i) →
      reduce_colors colors1 weights1 n = reduce_colors colors2 weights2 n) ∧
    (∀ (colors : ℕ → Vector4) (weights : ℕ → ℚ) (n : ℕ),
      (∀ i, i < n → 0 < weights i → is_black (colors i).xyz = false) →
      (reduce_colors colors weights n).2 = false) := by
  constructor
  · intro colors1 colors2 weights1 weights2 n hag
    induction n with
    | zero => rfl
    | succ k ih =>
      have ih' := ih (fun i hi hp => hag i (Nat.lt_succ_of_lt hi) hp)
      unfold reduce_colors at ih' ⊢
      rw [List.range_succ, List.foldl_append, List.foldl_append,
        List.foldl_cons, List.foldl_cons, List.foldl_nil, List.foldl_nil, ih']
      by_cases h1 : 0 < weights1 k
      · obtain ⟨hc, hw⟩ := hag k (Nat.lt_succ_self k) (Or.inl h1)
        rw [hc, hw]
      · by_cases h2 : 0 < weights2 k
        · obtain ⟨hc, hw⟩ := hag k (Nat.lt_succ_self k) (Or.inr h2)
          rw [hc, hw]
        · simp only [if_neg h1, if_neg h2]
  · intro colors weights n hb
    induction n with
    | zero => rfl
    | succ k ih =>
      have ih' := ih (fun i hi hp => hb i (Nat.lt_succ_of_lt hi) hp)
      unfold reduce_colors at ih' ⊢
      rw [List.range_succ, List.foldl_append, List.foldl_cons, List.foldl_nil]
      by_cases h1 : 0 < weights k
      · rw [if_pos h1]
        simp only [hb k (Nat.lt_succ_self k) h1, Bool.or_false]
        exact ih'
      · rw [if_neg h1]
        exact ih'

/-- C10 witness: two blocks differing only in a zero-weight texel (the
second block holds a near-black color there) reduce identically, and a
block whose only near-black texel has weight zero reduces with
any_black = false. -/
theorem C10_witness :
    reduce_colors solidRed firstThreeWeights 16 =
      reduce_colors (fun i => if i = 5 then ⟨0, 0, 0, 1⟩ else solidRed i)
        firstThreeWeights 16 ∧
    (reduce_colors (fun i => if i = 5 then ⟨0, 0, 0, 1⟩ else solidRed i)
      firstThreeWeights 16).2 = false :=
  ⟨C10_theorem.1 solidRed (fun i => if i = 5 then ⟨0, 0, 0, 1⟩ else solidRed i)
      firstThreeWeights firstThreeWeights 16 (by decide),
   C10_theorem.2 (fun i => if i = 5 then ⟨0, 0, 0, 1⟩ else solidRed i)
      firstThreeWeights 16 (by decide)⟩


/-- C4 counterexample: with three_color_mode = true the encoder emits a
3-color-mode block (col0.u < col1.u) on the red/midpoint/blue block even
though none of its 16 texels is near-black, so the near-black condition is
not required for 3-color mode. -/
theorem C4_counterexample :
    (compress_dxt1 redMidBlue firstThreeWeights ⟨1, 1, 1⟩ true false).1.col0.u <
      (compress_dxt1 redMidBlue firstThreeWeights ⟨1, 1, 1⟩ true false).1.col1.u ∧
    (∀ i : Fin 16, is_black (redMidBlue i.1).xyz = false) := by
  constructor
  · decide
  · decide

/-- C4 (corrected): a 3-color-mode block (col0.u < col1.u) can only be
produced when the caller passed three_color_mode = true; no near-black
condition is involved. -/
theorem C4_theorem (ic : ℕ → Vector4) (iw : ℕ → ℚ) (cw : Vector3) (tc hq : Bool)
    (h : (compress_dxt1 ic iw cw tc hq).1.col0.u <
      (compress_dxt1 ic iw cw tc hq).1.col1.u) :
    tc = true := by
  cases tc with
  | true => rfl
  | false => exact absurd h (not_lt.mpr (compress_dxt1_ordered ic iw cw hq))

/-- C4 witness: the corrected statement applied on the red/midpoint/blue
block, where the 3-color output does occur with three_color_mode = true. -/
theorem C4_witness :
    (compress_dxt1 redMidBlue firstThreeWeights ⟨1, 1, 1⟩ true false).1.col0.u <
      (compress_dxt1 redMidBlue firstThreeWeights ⟨1, 1, 1⟩ true false).1.col1.u ∧
    true = true :=
  (fun h => ⟨h, C4_theorem redMidBlue firstThreeWeights ⟨1, 1, 1⟩ true false h⟩)
    (by decide)

/-- C5: with three_color_mode = false and either value of hq, the block
compress_dxt1 returns satisfies col0.u > col1.u or col0.u = col1.u, on the
single-color, cluster-fit and refinement paths alike. -/
theorem C5_theorem (ic : ℕ → Vector4) (iw : ℕ → ℚ) (cw : Vector3) (hq : Bool) :
    (compress_dxt1 ic iw cw false hq).1.col1.u <
      (compress_dxt1 ic iw cw false hq).1.col0.u ∨
    (compress_dxt1 ic iw cw false hq).1.col0.u =
      (compress_dxt1 ic iw cw false hq).1.col1.u := by
  have h : (compress_dxt1 ic iw cw false hq).1.col1.u ≤
      (compress_dxt1 ic iw cw false hq).1.col0.u := compress_dxt1_ordered ic iw cw hq
  exact h.lt_or_eq.imp id Eq.symm

/-- C6: for every input and flag three_color_mode, the error compress_dxt1
returns with hq = true is at most the error it returns with hq = false
(refinement only ever replaces the block when the error strictly drops). -/
theorem C6_theorem (ic : ℕ → Vector4) (iw : ℕ → ℚ) (cw : Vector3) (tc : Bool) :
    (compress_dxt1 ic iw cw tc true).2 ≤ (compress_dxt1 ic iw cw tc false).2 := by
  rcases hred : reduce_colors ic iw 16 with ⟨colors, ub⟩
  simp only [compress_dxt1, hred]
  by_cases h0 : colors.length = 0
  · simp only [if_pos h0]
    exact le_refl _
  · simp only [if_neg h0]
    by_cases h1 : colors.length = 1
    · simp only [if_pos h1]
      exact le_refl _
    · simp only [if_neg h1, if_true, Bool.false_eq_true, if_false]
      exact refineGo_fst_le ic iw cw tc 256 0 0 _ _

end icbc
